import Mathlib

/-!
Verification of the FIR registry of `fir-vault-chain`.

The core is the Solidity contract `FIRContract` (src/unnamed/part_000):
a mapping from FIR identifiers to records, with operations `submitFIR`,
`updateFIRStatus` and `getFIR`, plus two events.  The client orchestrator
(src/src/lib/web3-utils.ts) wraps these in `submitFIRToBlockchain` and
`queryFIRFromBlockchain`.

Shallow embedding conventions:
* `string` is `String`; `bytes32` is a `Nat` (claims constrain it below
  `2 ^ 256` where the 32-byte width matters); `address` is a `Nat`;
  `uint256` and `uint8` are `Nat` with explicit range hypotheses where
  overflow or the argument width matters.
* The Solidity mapping returns a zero-initialised struct for absent keys;
  we model the table as a total function with the same default, and the
  `exists` flag marks registration exactly as in the source.
* A reverting call is `Except.error msg` carrying the revert string; the
  transaction semantics of the ledger mean a revert leaves state untouched
  and emits no events, which the embedding reflects by returning the new
  state and event list only in the `Except.ok` branch.
-/

/-- Status enumeration of the contract: `enum FIRStatus { Pending, UnderInvestigation, Closed }`. -/
inductive FIRStatus where
  | Pending
  | UnderInvestigation
  | Closed
deriving DecidableEq, Repr

/-- Numeric value of a status, as produced by the Solidity cast `uint8(fir.status)`. -/
def FIRStatus.toNat : FIRStatus → Nat
  | .Pending => 0
  | .UnderInvestigation => 1
  | .Closed => 2

/-- Status from a numeric value, as the Solidity cast `FIRStatus(_status)`; in the
contract this cast only runs after `require(_status <= uint8(FIRStatus.Closed))`,
so values above 2 never reach it. -/
def FIRStatus.ofUint8 : Nat → FIRStatus
  | 0 => .Pending
  | 1 => .UnderInvestigation
  | _ => .Closed

/-- The stored record, mirroring `struct FIR` of the contract. -/
structure FIR where
  dataCID : String
  dataHash : Nat
  status : FIRStatus
  timestamp : Nat
  submitter : Nat
  registered : Bool
deriving DecidableEq, Repr

/-- Zero-initialised struct that a Solidity mapping yields for an absent key;
its `exists` flag (field `registered` here) is `false`. -/
def FIR.default : FIR :=
  { dataCID := "", dataHash := 0, status := .Pending, timestamp := 0,
    submitter := 0, registered := false }

/-- Contract storage: `mapping(string => FIR) private firs`, as a total function
with the Solidity default for unset keys. -/
structure State where
  firs : String → FIR

/-- The empty storage of a freshly deployed contract. -/
def State.init : State := ⟨fun _ => FIR.default⟩

/-- Events of the contract: `FIRSubmitted(firId, dataCID, submitter)` and
`FIRStatusUpdated(firId, status)`. -/
inductive Event where
  | FIRSubmitted (firId : String) (dataCID : String) (submitter : Nat)
  | FIRStatusUpdated (firId : String) (status : FIRStatus)
deriving DecidableEq, Repr

/-- Embedding of `submitFIR(_firId, _dataCID, _dataHash)`.  The three `require`
statements run in source order: exists check, then non-empty id, then non-empty
CID; on success the record is written with status Pending, `block.timestamp`
(argument `now`) and `msg.sender` (argument `sender`), and one `FIRSubmitted`
event is emitted. -/
def submitFIR (st : State) (sender now : Nat) (firId dataCID : String)
    (dataHash : Nat) : Except String (State × List Event) :=
  if (st.firs firId).registered then .error "FIR already exists"
  else if firId.length = 0 then .error "FIR ID cannot be empty"
  else if dataCID.length = 0 then .error "Data CID cannot be empty"
  else
    let r : FIR :=
      { dataCID := dataCID, dataHash := dataHash, status := .Pending,
        timestamp := now, submitter := sender, registered := true }
    .ok (⟨fun x => if x = firId then r else st.firs x⟩,
         [.FIRSubmitted firId dataCID sender])

/-- Embedding of `updateFIRStatus(_firId, _status)`.  Requires the record to
exist and `_status <= uint8(FIRStatus.Closed)`, overwrites the status field
only and emits one `FIRStatusUpdated` event.  `_status` is a `uint8`; range
hypotheses appear in the theorems where they matter. -/
def updateFIRStatus (st : State) (firId : String) (status : Nat) :
    Except String (State × List Event) :=
  if ¬ (st.firs firId).registered then .error "FIR does not exist"
  else if 2 < status then .error "Invalid status"
  else
    .ok (⟨fun x => if x = firId then { st.firs x with status := FIRStatus.ofUint8 status }
                   else st.firs x⟩,
         [.FIRStatusUpdated firId (FIRStatus.ofUint8 status)])

/-- Embedding of the view `getFIR(_firId)`: requires existence and returns
`(dataCID, dataHash, uint8(status), timestamp, submitter)`. -/
def getFIR (st : State) (firId : String) :
    Except String (String × Nat × Nat × Nat × Nat) :=
  if ¬ (st.firs firId).registered then .error "FIR does not exist"
  else
    let fir := st.firs firId
    .ok (fir.dataCID, fir.dataHash, fir.status.toNat, fir.timestamp, fir.submitter)

/-- One external call to the contract, with its environment inputs. -/
inductive Op where
  | submit (sender now : Nat) (firId dataCID : String) (dataHash : Nat)
  | update (firId : String) (status : Nat)
  | get (firId : String)

/-- Transaction semantics of one call: a revert rolls the whole call back, so
the state after a failed call is the state before it. -/
def applyOp (st : State) : Op → State
  | .submit sender now firId dataCID dataHash =>
      match submitFIR st sender now firId dataCID dataHash with
      | .ok (st', _) => st'
      | .error _ => st
  | .update firId status =>
      match updateFIRStatus st firId status with
      | .ok (st', _) => st'
      | .error _ => st
  | .get _ => st

/-- States reachable from a freshly deployed contract by any sequence of calls. -/
def Reachable (st : State) : Prop :=
  ∃ ops : List Op, st = ops.foldl applyOp State.init

/-- Events emitted by a call: a revert emits none. -/
def eventsOf (r : Except String (State × List Event)) : List Event :=
  match r with
  | .ok (_, evs) => evs
  | .error _ => []

/-- Placeholder for `CryptoJS.SHA256(...).toString()` in `hashData`
(src/src/lib/web3-utils.ts): the digest function is modelled as an
uninterpreted injective map on strings; no claim depends on the digest text,
only on the fact that the orchestrator returns some hash-shaped string. -/
def hashData (s : String) : String := s

/-- Mapping of a revert reason to an internal error code, from the
`callError` branch of `submitFIRToBlockchain`: the source lowercases the
message and tests substring containment against the three registry revert
strings; on the registry revert strings themselves this is exact matching,
which is what the model does. -/
def classifyRevert (msg : String) : String :=
  if msg = "FIR already exists" then "FIR_ALREADY_EXISTS"
  else if msg = "FIR ID cannot be empty" then "INVALID_FIR_ID"
  else if msg = "Data CID cannot be empty" then "INVALID_DATA_CID"
  else "CONTRACT_REVERT"

/-- The user-facing reason string computed in the catch branch of
`submitFIRToBlockchain` from the internal error code. -/
def describeError (code : String) : String :=
  if code = "CONTRACT_NOT_DEPLOYED" then "Smart contract not deployed on this network"
  else if code = "FIR_ALREADY_EXISTS" then "A FIR with this ID already exists on the blockchain"
  else if code = "INVALID_FIR_ID" then "Invalid FIR ID provided"
  else if code = "INVALID_DATA_CID" then "Invalid IPFS CID provided"
  else if code = "CONTRACT_REVERT" then "Smart contract rejected the transaction"
  else "Unknown error"

/-- The record that the demo fallback writes to local storage under the
key `fir_tx_` followed by the FIR id. -/
structure LocalFIRRecord where
  firId : String
  dataCID : String
  dataHash : Nat
  walletAddress : Nat
  timestamp : Nat
  status : String
  mockTx : Bool
  errorReason : String
deriving DecidableEq, Repr

/-- Embedding of the client orchestrator `submitFIRToBlockchain` of
src/src/lib/web3-utils.ts.  Arguments beyond the registry inputs model its
environment: `deployed` is whether `eth.getCode` finds contract code at the
address, `realTxHash` is the transaction hash the ledger assigns on the
successful path, and `now` doubles as `Date.now()` in the fallback.  The
returned triple is (the promise outcome seen by the caller, the local-storage
write if any, the registry state after the call).  Every registry revert is
caught: the catch branch maps it to a reason string, stores a local record
marked `mockTx`, and returns a mock transaction hash, so the promise resolves
successfully on every registry-precondition failure. -/
def submitFIRToBlockchain (st : State) (deployed : Bool) (realTxHash : String)
    (now : Nat) (firId dataCID : String) (dataHash : Nat) (wallet : Nat) :
    Except String String × Option LocalFIRRecord × State :=
  let fallback : String → Except String String × Option LocalFIRRecord × State :=
    fun code =>
      (.ok ("0x" ++ hashData (firId ++ dataCID ++ toString now)),
       some { firId := firId, dataCID := dataCID, dataHash := dataHash,
              walletAddress := wallet, timestamp := now, status := "pending",
              mockTx := true, errorReason := describeError code },
       st)
  if ¬ deployed then fallback "CONTRACT_NOT_DEPLOYED"
  else
    match submitFIR st wallet now firId dataCID dataHash with
    | .error msg => fallback (classifyRevert msg)
    | .ok (st', _) => (.ok realTxHash, none, st')

/-- Embedding of `queryFIRFromBlockchain` of src/src/lib/web3-utils.ts: the
whole body is wrapped in try/catch and the catch returns `null`, so the
caller receives either the record object built from `getFIR` or `null`,
never an exception.  `infraOk` models whether the provider and contract call
infrastructure works at all; when it fails, control also lands in the catch. -/
def queryFIRFromBlockchain (st : State) (infraOk : Bool) (firId : String) :
    Option (String × Nat × Nat × Nat × Nat) :=
  if ¬ infraOk then none
  else
    match getFIR st firId with
    | .ok r => some r
    | .error _ => none

/-- Composition of a register call with a subsequent read of the same
identifier, the scenario of the spec round trip: the read runs on the state
left by the register call, and a register failure propagates. -/
def registerThenRead (st : State) (sender now : Nat) (firId dataCID : String)
    (dataHash : Nat) : Except String (String × Nat × Nat × Nat × Nat) :=
  match submitFIR st sender now firId dataCID dataHash with
  | .ok (st', _) => getFIR st' firId
  | .error e => .error e

/-- Composition of a status update with a subsequent read of the same
identifier. -/
def updateThenRead (st : State) (firId : String) (s : Nat) :
    Except String (String × Nat × Nat × Nat × Nat) :=
  match updateFIRStatus st firId s with
  | .ok (st', _) => getFIR st' firId
  | .error e => .error e

/-- A concrete stored record used by the witness instances. -/
def sampleFIR : FIR :=
  { dataCID := "bafy-abc", dataHash := 7, status := .Pending,
    timestamp := 5, submitter := 9, registered := true }

/-- A concrete registry state holding exactly one record, under id FIR-001. -/
def st1 : State := ⟨fun x => if x = "FIR-001" then sampleFIR else FIR.default⟩

/-- Helper: a string has length zero exactly when it is the empty string. -/
theorem string_length_eq_zero_iff (s : String) : s.length = 0 ↔ s = "" := by
  obtain ⟨l⟩ := s
  constructor
  · intro h
    have hl : l = [] := List.eq_nil_of_length_eq_zero h
    subst hl
    rfl
  · intro h
    rw [h]
    rfl

/-- Helper: shape of a successful `submitFIR` call, read off its definition:
success implies all three requires passed and the new state stores the fresh
record at the submitted id. -/
theorem submitFIR_ok_shape (st : State) (sender now : Nat) (fid cid : String)
    (dh : Nat) (st' : State) (evs : List Event)
    (h : submitFIR st sender now fid cid dh = .ok (st', evs)) :
    (st.firs fid).registered = false ∧ fid.length ≠ 0 ∧ cid.length ≠ 0 ∧
      st' = ⟨fun x => if x = fid then
        { dataCID := cid, dataHash := dh, status := .Pending, timestamp := now,
          submitter := sender, registered := true } else st.firs x⟩ ∧
      evs = [.FIRSubmitted fid cid sender] := by
  unfold submitFIR at h
  split_ifs at h with h1 h2 h3
  simp only [Except.ok.injEq, Prod.mk.injEq] at h
  exact ⟨by simpa using h1, h2, h3, h.1.symm, h.2.symm⟩

/-- Helper: shape of a successful `updateFIRStatus` call: the record existed,
the status argument was in range, and the new state only rewrites the status
field of that record. -/
theorem updateFIRStatus_ok_shape (st : State) (fid : String) (s : Nat)
    (st' : State) (evs : List Event)
    (h : updateFIRStatus st fid s = .ok (st', evs)) :
    (st.firs fid).registered = true ∧ s ≤ 2 ∧
      st' = ⟨fun x => if x = fid then { st.firs x with status := FIRStatus.ofUint8 s }
             else st.firs x⟩ ∧
      evs = [.FIRStatusUpdated fid (FIRStatus.ofUint8 s)] := by
  unfold updateFIRStatus at h
  split_ifs at h with h1 h2
  simp only [Except.ok.injEq, Prod.mk.injEq] at h
  exact ⟨by simpa using h1, by omega, h.1.symm, h.2.symm⟩

/-- C1: for every non-empty identifier that is not yet registered, every
non-empty content locator and every 32-byte digest, register succeeds and a
subsequent read of the same identifier returns exactly the locator, the
digest, status Pending, the ledger time of the registration, and the
registering caller as submitter. -/
theorem register_then_read_pending (st : State) (sender now : Nat)
    (firId dataCID : String) (dataHash : Nat)
    (hfree : (st.firs firId).registered = false)
    (hid : firId ≠ "") (hcid : dataCID ≠ "") (hdig : dataHash < 2 ^ 256) :
    registerThenRead st sender now firId dataCID dataHash =
      .ok (dataCID, dataHash, FIRStatus.Pending.toNat, now, sender) := by
  have hid0 : firId.length ≠ 0 := fun h => hid ((string_length_eq_zero_iff firId).mp h)
  have hcid0 : dataCID.length ≠ 0 := fun h => hcid ((string_length_eq_zero_iff dataCID).mp h)
  simp [registerThenRead, submitFIR, hfree, hid0, hcid0, getFIR, FIRStatus.toNat]

/-- Witness for C1 at a concrete registration on the empty registry. -/
theorem register_then_read_pending_witness :
    registerThenRead State.init 9 5 "FIR-001" "bafy-abc" 7 =
      .ok ("bafy-abc", 7, 0, 5, 9) :=
  register_then_read_pending State.init 9 5 "FIR-001" "bafy-abc" 7 rfl
    (by decide) (by decide) (by norm_num)

/-- C2: register rejects with no state change in exactly the three caller
error cases, in the priority order of the source requires: an existing record
rejects with the already-exists reason regardless of the new locator and
digest, an empty identifier rejects with the empty-identifier reason, an
empty locator rejects with the empty-locator reason; any other input
succeeds, so these are the only rejection cases, and every rejection leaves
the whole registry state, in particular the original record, unchanged. -/
theorem register_rejection_cases (st : State) (sender now : Nat)
    (firId dataCID : String) (dataHash : Nat) :
    ((st.firs firId).registered = true →
      submitFIR st sender now firId dataCID dataHash = .error "FIR already exists" ∧
      applyOp st (.submit sender now firId dataCID dataHash) = st) ∧
    ((st.firs firId).registered = false → firId = "" →
      submitFIR st sender now firId dataCID dataHash = .error "FIR ID cannot be empty" ∧
      applyOp st (.submit sender now firId dataCID dataHash) = st) ∧
    ((st.firs firId).registered = false → firId ≠ "" → dataCID = "" →
      submitFIR st sender now firId dataCID dataHash = .error "Data CID cannot be empty" ∧
      applyOp st (.submit sender now firId dataCID dataHash) = st) ∧
    ((st.firs firId).registered = false → firId ≠ "" → dataCID ≠ "" →
      (submitFIR st sender now firId dataCID dataHash).isOk = true) := by
  refine ⟨?_, ?_, ?_, ?_⟩
  · intro h1
    constructor
    · simp [submitFIR, h1]
    · simp [applyOp, submitFIR, h1]
  · intro h1 h2
    subst h2
    constructor
    · simp [submitFIR, h1]
    · simp [applyOp, submitFIR, h1]
  · intro h1 h2 h3
    subst h3
    have h2' : firId.length ≠ 0 := fun h => h2 ((string_length_eq_zero_iff firId).mp h)
    constructor
    · simp [submitFIR, h1, h2']
    · simp [applyOp, submitFIR, h1, h2']
  · intro h1 h2 h3
    have h2' : firId.length ≠ 0 := fun h => h2 ((string_length_eq_zero_iff firId).mp h)
    have h3' : dataCID.length ≠ 0 := fun h => h3 ((string_length_eq_zero_iff dataCID).mp h)
    simp [submitFIR, h1, h2', h3', Except.isOk, Except.toBool]

/-- Witness for C2: a second register for the already-registered id FIR-001
with a different locator and digest is rejected with the already-exists
reason and the state is unchanged. -/
theorem register_rejection_cases_witness :
    submitFIR st1 4 6 "FIR-001" "bafy-xyz" 8 = .error "FIR already exists" ∧
    applyOp st1 (.submit 4 6 "FIR-001" "bafy-xyz" 8) = st1 :=
  (register_rejection_cases st1 4 6 "FIR-001" "bafy-xyz" 8).1 rfl

/-- Helper: on arguments at most 2, the numeric status round trips through
the enumeration cast. -/
theorem toNat_ofUint8_of_le (s : Nat) (hs : s ≤ 2) :
    (FIRStatus.ofUint8 s).toNat = s := by
  interval_cases s <;> rfl

/-- C3: for every registered identifier and every status argument in the
range 0 to 2, including the current status itself and transitions out of
Closed, the update succeeds, a subsequent read reflects the new status, and
the stored record differs from the old one in the status field only. -/
theorem updateStatus_success_frame (st : State) (firId : String) (s : Nat)
    (hreg : (st.firs firId).registered = true) (hs : s ≤ 2) :
    updateThenRead st firId s =
      .ok ((st.firs firId).dataCID, (st.firs firId).dataHash, s,
           (st.firs firId).timestamp, (st.firs firId).submitter) ∧
    (applyOp st (.update firId s)).firs firId =
      { st.firs firId with status := FIRStatus.ofUint8 s } := by
  have hns : ¬ 2 < s := by omega
  constructor
  · simp [updateThenRead, updateFIRStatus, hreg, hns, getFIR,
      toNat_ofUint8_of_le s hs]
  · simp [applyOp, updateFIRStatus, hreg, hns]

/-- Witness for C3: moving the concrete record FIR-001 to status 1 succeeds,
the read shows status 1, and only the status field changed. -/
theorem updateStatus_success_frame_witness :
    updateThenRead st1 "FIR-001" 1 = .ok ("bafy-abc", 7, 1, 5, 9) ∧
    (applyOp st1 (.update "FIR-001" 1)).firs "FIR-001" =
      { st1.firs "FIR-001" with status := FIRStatus.ofUint8 1 } :=
  updateStatus_success_frame st1 "FIR-001" 1 rfl (by norm_num)

/-- C4: for an identifier with no registered record, both the status update
and the read are rejected with the does-not-exist reason and the registry
state is unchanged. -/
theorem missing_record_not_found (st : State) (firId : String) (s : Nat)
    (h : (st.firs firId).registered = false) :
    updateFIRStatus st firId s = .error "FIR does not exist" ∧
    getFIR st firId = .error "FIR does not exist" ∧
    applyOp st (.update firId s) = st ∧
    applyOp st (.get firId) = st := by
  refine ⟨?_, ?_, ?_, rfl⟩
  · simp [updateFIRStatus, h]
  · simp [getFIR, h]
  · simp [applyOp, updateFIRStatus, h]

/-- Witness for C4 on the empty registry at an unknown id. -/
theorem missing_record_not_found_witness :
    updateFIRStatus State.init "FIR-404" 1 = .error "FIR does not exist" ∧
    getFIR State.init "FIR-404" = .error "FIR does not exist" ∧
    applyOp State.init (.update "FIR-404" 1) = State.init ∧
    applyOp State.init (.get "FIR-404") = State.init :=
  missing_record_not_found State.init "FIR-404" 1 rfl

/-- C5: for a registered identifier and a status argument outside 0 to 2 but
inside the uint8 argument range, the update is rejected with the
invalid-status reason and the whole registry state, in particular every
field of the record, is unchanged. -/
theorem updateStatus_invalid_rejected (st : State) (firId : String) (s : Nat)
    (hreg : (st.firs firId).registered = true) (h3 : 2 < s) (h8 : s < 256) :
    updateFIRStatus st firId s = .error "Invalid status" ∧
    applyOp st (.update firId s) = st := by
  constructor
  · simp [updateFIRStatus, hreg, h3]
  · simp [applyOp, updateFIRStatus, hreg, h3]

/-- Witness for C5: updating the concrete record FIR-001 to status 3 is
rejected and changes nothing. -/
theorem updateStatus_invalid_rejected_witness :
    updateFIRStatus st1 "FIR-001" 3 = .error "Invalid status" ∧
    applyOp st1 (.update "FIR-001" 3) = st1 :=
  updateStatus_invalid_rejected st1 "FIR-001" 3 rfl (by norm_num) (by norm_num)

/-- Helper: one contract call preserves an existing record: its existence
flag and every field other than status survive any single operation. -/
theorem applyOp_preserves_record (st : State) (op : Op) (firId : String)
    (h : (st.firs firId).registered = true) :
    ((applyOp st op).firs firId).registered = true ∧
    ((applyOp st op).firs firId).dataCID = (st.firs firId).dataCID ∧
    ((applyOp st op).firs firId).dataHash = (st.firs firId).dataHash ∧
    ((applyOp st op).firs firId).timestamp = (st.firs firId).timestamp ∧
    ((applyOp st op).firs firId).submitter = (st.firs firId).submitter := by
  cases op with
  | get fid => exact ⟨h, rfl, rfl, rfl, rfl⟩
  | submit sender now fid cid dh =>
    cases hsub : submitFIR st sender now fid cid dh with
    | error e => simp [applyOp, hsub, h]
    | ok p =>
      obtain ⟨st', evs⟩ := p
      obtain ⟨hfree, hfid, hcid, hst', hevs⟩ :=
        submitFIR_ok_shape st sender now fid cid dh st' evs hsub
      subst hst'
      have hne : firId ≠ fid := by
        intro hEq
        rw [hEq] at h
        rw [h] at hfree
        exact Bool.noConfusion hfree
      simp [applyOp, hsub, hne, h]
  | update fid s =>
    cases hup : updateFIRStatus st fid s with
    | error e => simp [applyOp, hup, h]
    | ok p =>
      obtain ⟨st', evs⟩ := p
      obtain ⟨hreg, hs, hst', hevs⟩ := updateFIRStatus_ok_shape st fid s st' evs hup
      subst hst'
      by_cases hne : firId = fid
      · subst hne
        simp [applyOp, hup, h]
      · simp [applyOp, hup, hne, h]

/-- C6: a registered record is never destroyed: after any sequence of
register, update-status and read calls applied to any state in which the
record exists, the record still exists under the same identifier with the
same locator, digest, creation time and submitter; the registry supports no
deletion. -/
theorem records_never_deleted (st : State) (ops : List Op) (firId : String)
    (h : (st.firs firId).registered = true) :
    (((ops.foldl applyOp st).firs firId).registered = true) ∧
    ((ops.foldl applyOp st).firs firId).dataCID = (st.firs firId).dataCID ∧
    ((ops.foldl applyOp st).firs firId).dataHash = (st.firs firId).dataHash ∧
    ((ops.foldl applyOp st).firs firId).timestamp = (st.firs firId).timestamp ∧
    ((ops.foldl applyOp st).firs firId).submitter = (st.firs firId).submitter := by
  induction ops generalizing st with
  | nil => exact ⟨h, rfl, rfl, rfl, rfl⟩
  | cons op rest ih =>
    obtain ⟨h1, h2, h3, h4, h5⟩ := applyOp_preserves_record st op firId h
    obtain ⟨g1, g2, g3, g4, g5⟩ := ih (applyOp st op) h1
    simp only [List.foldl_cons]
    exact ⟨g1, g2.trans h2, g3.trans h3, g4.trans h4, g5.trans h5⟩

/-- Witness for C6: the concrete record FIR-001 survives a status update, a
fresh registration under another id, a rejected duplicate registration and a
read, with all immutable fields intact. -/
theorem records_never_deleted_witness :
    ((([Op.update "FIR-001" 2, Op.submit 4 10 "FIR-002" "bafy-two" 3,
        Op.submit 4 11 "FIR-001" "bafy-three" 4,
        Op.get "FIR-001"].foldl applyOp st1).firs "FIR-001").registered = true) ∧
    ((([Op.update "FIR-001" 2, Op.submit 4 10 "FIR-002" "bafy-two" 3,
        Op.submit 4 11 "FIR-001" "bafy-three" 4,
        Op.get "FIR-001"].foldl applyOp st1).firs "FIR-001").dataCID = "bafy-abc") ∧
    ((([Op.update "FIR-001" 2, Op.submit 4 10 "FIR-002" "bafy-two" 3,
        Op.submit 4 11 "FIR-001" "bafy-three" 4,
        Op.get "FIR-001"].foldl applyOp st1).firs "FIR-001").dataHash = 7) ∧
    ((([Op.update "FIR-001" 2, Op.submit 4 10 "FIR-002" "bafy-two" 3,
        Op.submit 4 11 "FIR-001" "bafy-three" 4,
        Op.get "FIR-001"].foldl applyOp st1).firs "FIR-001").timestamp = 5) ∧
    ((([Op.update "FIR-001" 2, Op.submit 4 10 "FIR-002" "bafy-two" 3,
        Op.submit 4 11 "FIR-001" "bafy-three" 4,
        Op.get "FIR-001"].foldl applyOp st1).firs "FIR-001").submitter = 9) :=
  records_never_deleted st1
    [Op.update "FIR-001" 2, Op.submit 4 10 "FIR-002" "bafy-two" 3,
     Op.submit 4 11 "FIR-001" "bafy-three" 4, Op.get "FIR-001"] "FIR-001" rfl

/-- C7 counterexample: with the contract deployed and the id FIR-001 already
registered, the register call through the orchestrator fails the registry
precondition with the already-exists reason, yet the promise returned to the
caller of the orchestrator resolves successfully with a mock transaction
hash, so the caller sees a success result rather than the specific failure. -/
theorem orchestrator_masks_precondition_failure :
    submitFIR st1 9 6 "FIR-001" "bafy-xyz" 8 = .error "FIR already exists" ∧
    (submitFIRToBlockchain st1 true "0xreal" 6 "FIR-001" "bafy-xyz" 8 9).1 =
      .ok ("0x" ++ hashData ("FIR-001" ++ "bafy-xyz" ++ toString 6)) := by
  constructor
  · rfl
  · rfl

/-- C7 amended: when a register call made through the client orchestrator
fails a registry precondition, the orchestrator catches the revert, returns
a successfully resolved mock transaction hash to its caller, leaves the
registry unchanged, and records the specific failure reason only in its
local fallback record; the caller therefore receives a success-shaped result
and the differentiated reason survives only in local bookkeeping. -/
theorem orchestrator_demo_fallback_on_failure (st : State) (realTxHash : String)
    (now : Nat) (firId dataCID : String) (dataHash wallet : Nat) (e : String)
    (h : submitFIR st wallet now firId dataCID dataHash = .error e) :
    submitFIRToBlockchain st true realTxHash now firId dataCID dataHash wallet =
      (.ok ("0x" ++ hashData (firId ++ dataCID ++ toString now)),
       some { firId := firId, dataCID := dataCID, dataHash := dataHash,
              walletAddress := wallet, timestamp := now, status := "pending",
              mockTx := true, errorReason := describeError (classifyRevert e) },
       st) := by
  simp [submitFIRToBlockchain, h]

/-- Witness for the amended C7 at the concrete duplicate registration. -/
theorem orchestrator_demo_fallback_on_failure_witness :
    submitFIRToBlockchain st1 true "0xreal" 6 "FIR-001" "bafy-xyz" 8 9 =
      (.ok ("0x" ++ hashData ("FIR-001" ++ "bafy-xyz" ++ toString 6)),
       some { firId := "FIR-001", dataCID := "bafy-xyz", dataHash := 8,
              walletAddress := 9, timestamp := 6, status := "pending",
              mockTx := true,
              errorReason := describeError (classifyRevert "FIR already exists") },
       st1) :=
  orchestrator_demo_fallback_on_failure st1 "0xreal" 6 "FIR-001" "bafy-xyz" 8 9
    "FIR already exists" rfl

/-- C8: a register call emits exactly one FIRSubmitted fact carrying the
identifier, locator and submitter precisely when it succeeds, and a status
update emits exactly one FIRStatusUpdated fact carrying the identifier and
new status precisely when it succeeds; a failed call reverts and emits no
fact. -/
theorem calls_emit_exactly_their_event (st : State) (sender now : Nat)
    (firId dataCID : String) (dataHash s : Nat) :
    eventsOf (submitFIR st sender now firId dataCID dataHash) =
      (if (st.firs firId).registered = false ∧ firId ≠ "" ∧ dataCID ≠ "" then
        [Event.FIRSubmitted firId dataCID sender] else []) ∧
    eventsOf (updateFIRStatus st firId s) =
      (if (st.firs firId).registered = true ∧ s ≤ 2 then
        [Event.FIRStatusUpdated firId (FIRStatus.ofUint8 s)] else []) := by
  constructor
  · by_cases h1 : (st.firs firId).registered = true
    · simp [eventsOf, submitFIR, h1]
    · have h1' : (st.firs firId).registered = false := by
        cases hb : (st.firs firId).registered
        · rfl
        · exact absurd hb h1
      by_cases h2 : firId = ""
      · subst h2
        simp [eventsOf, submitFIR, h1']
      · have h2' : firId.length ≠ 0 := fun h => h2 ((string_length_eq_zero_iff firId).mp h)
        by_cases h3 : dataCID = ""
        · subst h3
          simp [eventsOf, submitFIR, h1', h2, h2']
        · have h3' : dataCID.length ≠ 0 := fun h => h3 ((string_length_eq_zero_iff dataCID).mp h)
          simp [eventsOf, submitFIR, h1', h2, h2', h3, h3']
  · by_cases h1 : (st.firs firId).registered = true
    · by_cases h2 : s ≤ 2
      · have h2' : ¬ 2 < s := by omega
        simp [eventsOf, updateFIRStatus, h1, h2, h2']
      · have h2' : 2 < s := by omega
        simp [eventsOf, updateFIRStatus, h1, h2, h2']
    · simp [eventsOf, updateFIRStatus, h1]

/-- Helper: no single contract call can create a record under the empty
identifier, because a successful register requires a non-empty id and a
status update requires prior existence and touches only the status field. -/
theorem applyOp_preserves_unregistered_empty (st : State) (op : Op)
    (h : (st.firs "").registered = false) :
    ((applyOp st op).firs "").registered = false := by
  cases op with
  | get fid => exact h
  | submit sender now fid cid dh =>
    cases hsub : submitFIR st sender now fid cid dh with
    | error e => simpa [applyOp, hsub] using h
    | ok p =>
      obtain ⟨st', evs⟩ := p
      obtain ⟨hfree, hfid, hcid, hst', hevs⟩ :=
        submitFIR_ok_shape st sender now fid cid dh st' evs hsub
      subst hst'
      have hne : ("" : String) ≠ fid := by
        intro hEq
        exact hfid (hEq ▸ rfl)
      simpa [applyOp, hsub, hne] using h
  | update fid s =>
    cases hup : updateFIRStatus st fid s with
    | error e => simpa [applyOp, hup] using h
    | ok p =>
      obtain ⟨st', evs⟩ := p
      obtain ⟨hreg, hs, hst', hevs⟩ := updateFIRStatus_ok_shape st fid s st' evs hup
      subst hst'
      by_cases hne : ("" : String) = fid
      · rw [← hne] at hreg
        rw [h] at hreg
        exact Bool.noConfusion hreg
      · simpa [applyOp, hup, hne] using h

/-- C9: in every reachable registry state the empty identifier is
unregistered, so a register call with the empty identifier is always
rejected with the empty-id reason and never with the already-exists reason,
even though the contract checks existence before checking non-emptiness. -/
theorem empty_identifier_never_registered (st : State) (sender now : Nat)
    (dataCID : String) (dataHash : Nat) (hR : Reachable st) :
    (st.firs "").registered = false ∧
    submitFIR st sender now "" dataCID dataHash = .error "FIR ID cannot be empty" ∧
    submitFIR st sender now "" dataCID dataHash ≠ .error "FIR already exists" := by
  obtain ⟨ops, rfl⟩ := hR
  have key : ∀ (l : List Op) (s0 : State), (s0.firs "").registered = false →
      ((l.foldl applyOp s0).firs "").registered = false := by
    intro l
    induction l with
    | nil => intro s0 h; exact h
    | cons op rest ih =>
      intro s0 h
      exact ih (applyOp s0 op) (applyOp_preserves_unregistered_empty s0 op h)
  have hempty := key ops State.init rfl
  have hval : submitFIR (ops.foldl applyOp State.init) sender now "" dataCID dataHash =
      .error "FIR ID cannot be empty" := by
    simp [submitFIR, hempty]
  refine ⟨hempty, hval, ?_⟩
  rw [hval]
  intro hcontra
  injection hcontra with hmsg
  exact absurd hmsg (by decide)

/-- Witness for C9 on the freshly deployed registry. -/
theorem empty_identifier_never_registered_witness :
    (State.init.firs "").registered = false ∧
    submitFIR State.init 9 5 "" "bafy-abc" 7 = .error "FIR ID cannot be empty" ∧
    submitFIR State.init 9 5 "" "bafy-abc" 7 ≠ .error "FIR already exists" :=
  empty_identifier_never_registered State.init 9 5 "bafy-abc" 7 ⟨[], rfl⟩

/-- C10: the client read wrapper is total towards its caller: for every
registry state, infrastructure condition and identifier it either returns
the record tuple exactly as stored, namely when the infrastructure works and
the record exists, or returns null; unknown identifiers and infrastructure
failures collapse into the same null result and no error is raised. -/
theorem query_returns_record_or_null (st : State) (infraOk : Bool)
    (firId : String) :
    queryFIRFromBlockchain st infraOk firId =
      (if infraOk = true ∧ (st.firs firId).registered = true then
        some ((st.firs firId).dataCID, (st.firs firId).dataHash,
              (st.firs firId).status.toNat, (st.firs firId).timestamp,
              (st.firs firId).submitter)
       else none) := by
  cases infraOk with
  | false => simp [queryFIRFromBlockchain]
  | true =>
    by_cases h : (st.firs firId).registered = true
    · simp [queryFIRFromBlockchain, getFIR, h]
    · simp [queryFIRFromBlockchain, getFIR, h]
